import Mathlib

/-!
Verification of the yt-products GPU video pipeline core.

Shallow embedding of the code in `src/modules/caption_generator.py`,
`src/modules/video_overlay.py` and `src/modules/video_processor.py`.
Durations and timestamps (Python floats holding seconds) are modelled as
rationals; subprocess calls (ffmpeg / ffprobe) are modelled by an
environment record giving each call its outcome, and the functions that
drive them become pure functions of that environment which also report
the observable effects the claims talk about (temp files left on disk,
which path was taken, how many concat entries were written).
-/

namespace YTProducts

/-! ## caption_generator.py -/

/-- Helper for `chunk_text_by_words`: walks the word list carrying the
current chunk, flushing it whenever it has reached `max_words` words, and
flushing a non-empty remainder at the end (the `for` loop plus the final
`if current_chunk` of the source). -/
def chunkWordsAux (max_words : ℕ) : List String → List String → List (List String)
  | [], current => if current.isEmpty then [] else [current]
  | w :: ws, current =>
      let c := current ++ [w]
      if max_words ≤ c.length then c :: chunkWordsAux max_words ws []
      else chunkWordsAux max_words ws c

/-- Embedding of `chunk_text_by_words(text, max_words=5)`. The argument is
the word list `text.split()`; each produced chunk is re-joined with single
blanks exactly as the join over the current chunk does in the source. -/
def chunk_text_by_words (words : List String) (max_words : ℕ) : List String :=
  (chunkWordsAux max_words words []).map (String.intercalate " ")

/-- One raw transcription segment as delivered by the whisper model: start
and end times in seconds and the word list of the stripped text. The field
`stop` stands for the attribute `end` of the source, which is a reserved
word in Lean. -/
structure RawSegment where
  start : ℚ
  stop : ℚ
  words : List String

/-- One chunked caption line (a dict with keys start, end, text in the
source). -/
structure CaptionSegment where
  start : ℚ
  stop : ℚ
  text : String

/-- Embedding of the chunking body of `transcribe_audio` for one raw
segment: chunk the text into groups of at most 5 words, skip the segment
when there are no chunks (`continue`), otherwise give chunk `i` the time
span from `start + i * chunk_duration` of length
`chunk_duration = (end - start) / len(chunks)`. -/
def chunkSegment (seg : RawSegment) : List CaptionSegment :=
  let chunks := chunk_text_by_words seg.words 5
  if chunks.isEmpty then []
  else
    let chunk_duration := (seg.stop - seg.start) / (chunks.length : ℚ)
    chunks.enum.map fun ic =>
      { start := seg.start + ic.1 * chunk_duration
        stop := seg.start + ic.1 * chunk_duration + chunk_duration
        text := ic.2 }

/-- Embedding of the whole chunking loop of `transcribe_audio` over the
segment list. -/
def transcribe_segments (segs : List RawSegment) : List CaptionSegment :=
  segs.flatMap chunkSegment

/-- Python float floor division `a // b` followed by `int(...)`: for a
positive divisor this is the mathematical floor of the quotient. -/
def pyFloorDiv (a b : ℚ) : ℤ := ⌊a / b⌋

/-- Python float modulo `a % b`: for a positive divisor `b` this is
`a - b * (a // b)`, which lies in `[0, b)`. -/
def pyMod (a b : ℚ) : ℚ := a - b * (⌊a / b⌋ : ℤ)

/-- Round half to even, the rounding Python applies when formatting a
float with a fixed number of decimals (here applied to centiseconds). -/
def rne (q : ℚ) : ℤ :=
  if q - (⌊q⌋ : ℚ) = 1 / 2 then (if 2 ∣ ⌊q⌋ then ⌊q⌋ else ⌊q⌋ + 1)
  else ⌊q + 1 / 2⌋

/-- Zero padding of a natural number to two digits, as the format specs
`02d` and the integer part of `05.2f` produce for the values that occur
here. -/
def pad2 (n : ℕ) : String :=
  if n < 10 then "0" ++ toString n else toString n

/-- Zero padding of an integer to width two (`{minutes:02d}`). The minutes
value is always non-negative because it comes from a Python modulo by a
positive number. -/
def pad2z (i : ℤ) : String :=
  if 0 ≤ i ∧ i < 10 then "0" ++ toString i else toString i

/-- The format spec `{secs:05.2f}`: round to centiseconds (half to even)
and print with two decimals, zero padded to width five. The argument is a
Python modulo by 60 and hence non-negative. -/
def fmt052 (q : ℚ) : String :=
  let c := (rne (q * 100)).toNat
  pad2 (c / 100) ++ "." ++ pad2 (c % 100)

/-- Embedding of `format_timestamp_ass(seconds)`:
`hours = int(seconds // 3600)`, `minutes = int((seconds % 3600) // 60)`,
`secs = seconds % 60`, printed as `{hours}:{minutes:02d}:{secs:05.2f}`. -/
def format_timestamp_ass (seconds : ℚ) : String :=
  toString (pyFloorDiv seconds 3600) ++ ":" ++
    pad2z (pyFloorDiv (pyMod seconds 3600) 60) ++ ":" ++
    fmt052 (pyMod seconds 60)

/-! ## video_overlay.py -/

/-- Embedding of the timing resolution of `apply_video_overlay_smart`
(lines 74 to 86): resolve the window for the three timing modes and clamp
the end to the duration of the main video. Returns the pair
`(actual_start, actual_end)`. -/
def apply_video_overlay_window (timing_mode : String) (main_duration overlay_duration : ℚ)
    (start_time : ℚ) (end_time : Option ℚ) : ℚ × ℚ :=
  let resolved :=
    if timing_mode = "full_duration" then ((0 : ℚ), main_duration)
    else if timing_mode = "overlay_duration" then (start_time, start_time + overlay_duration)
    else (start_time, end_time.getD main_duration)
  (resolved.1, min resolved.2 main_duration)

/-! ## video_processor.py -/

/-- Python `int(x)` on a float: truncation toward zero. -/
def pyInt (q : ℚ) : ℤ := if 0 ≤ q then ⌊q⌋ else ⌈q⌉

/-- The temporary files `loop_video_to_match_audio` creates next to the
output: the concat list `concat_list.txt`, the looped file
`temp_looped.mp4`, the trimmed file `temp_trimmed.mp4`, and the scaled
input `scaled_input_<name>` written by `scale_video_to_1080p` when the
input is not already 1920x1080. -/
inductive TempFile
  | concatList
  | tempLooped
  | tempTrimmed
  | scaledTemp
deriving DecidableEq

/-- Outcomes of the external calls one run of `loop_video_to_match_audio`
makes. A `.error s` means the subprocess exited non-zero with stderr `s`
(for the probes it also covers unparsable output); an `.ok` value is what
a successful call yields. `needsScale` records whether the resolution
probe inside `scale_video_to_1080p` saw something other than 1920x1080,
so a scaled copy has to be encoded. -/
structure Env where
  needsScale : Bool
  scale : Except String Unit
  probeVideo : Except String ℚ
  probeAudio : Except String ℚ
  concat : Except String Unit
  trim : Except String Unit
  combine : Except String Unit

/-- Everything observable about one run of `loop_video_to_match_audio`:
the returned output path or the message of the exception it raises, the
temporary files still on disk when it resolves, whether it took the
loop/concat/trim branch, how many `file` lines were written to the concat
list (0 on the direct branch), and how many combine passes ran. Wall
clock timing (the second component of the Python return value) is not
modelled. -/
structure MatchOutcome where
  result : Except String String
  tempsLeft : List TempFile
  usedLoopPath : Bool
  concatEntries : ℕ
  combinePasses : ℕ

/-- Continuation of `loop_video_to_match_audio` after the scaling step;
`scaled` says whether a scaled temp file was created (the source guards
its cleanup with `str(processed_video_path) != str(video_path)`). -/
def afterScale (e : Env) (output_path : String) (scaled : Bool) : MatchOutcome :=
  let scaledTemps : List TempFile := if scaled then [.scaledTemp] else []
  match e.probeVideo with
  | .error s =>
      { result := .error ("ffprobe error: " ++ s), tempsLeft := scaledTemps,
        usedLoopPath := false, concatEntries := 0, combinePasses := 0 }
  | .ok video_dur =>
  match e.probeAudio with
  | .error s =>
      { result := .error ("ffprobe error: " ++ s), tempsLeft := scaledTemps,
        usedLoopPath := false, concatEntries := 0, combinePasses := 0 }
  | .ok audio_dur =>
  if audio_dur ≤ video_dur then
    -- audio not longer than video: combine directly, then drop the scaled temp
    match e.combine with
    | .error s =>
        { result := .error ("GPU video-audio combination failed: " ++ s),
          tempsLeft := scaledTemps, usedLoopPath := false, concatEntries := 0,
          combinePasses := 1 }
    | .ok _ =>
        { result := .ok output_path, tempsLeft := [], usedLoopPath := false,
          concatEntries := 0, combinePasses := 1 }
  else
    -- loops_needed = int(audio_dur / video_dur) + 1, then write the concat list
    let loops_needed : ℤ := pyInt (audio_dur / video_dur) + 1
    let entries := loops_needed.toNat
    match e.concat with
    | .error s =>
        { result := .error ("Video looping failed: " ++ s),
          tempsLeft := .concatList :: scaledTemps, usedLoopPath := true,
          concatEntries := entries, combinePasses := 0 }
    | .ok _ =>
    match e.trim with
    | .error s =>
        { result := .error ("Video trimming failed: " ++ s),
          tempsLeft := .concatList :: .tempLooped :: scaledTemps,
          usedLoopPath := true, concatEntries := entries, combinePasses := 0 }
    | .ok _ =>
    match e.combine with
    | .error s =>
        { result := .error ("GPU video-audio combination failed: " ++ s),
          tempsLeft := .concatList :: .tempLooped :: .tempTrimmed :: scaledTemps,
          usedLoopPath := true, concatEntries := entries, combinePasses := 1 }
    | .ok _ =>
        -- success: the cleanup block unlinks every temporary file
        { result := .ok output_path, tempsLeft := [], usedLoopPath := true,
          concatEntries := entries, combinePasses := 1 }

/-- Embedding of `loop_video_to_match_audio(video_path, audio_path,
output_path, quality_preset)`. The first step scales the input to 1080p
when needed; a failure there (resolution probe or GPU encode) raises
before any other temp file exists. -/
def loop_video_to_match_audio (e : Env) (output_path : String) : MatchOutcome :=
  if e.needsScale then
    match e.scale with
    | .error s =>
        { result := .error ("GPU video scaling failed: " ++ s), tempsLeft := [],
          usedLoopPath := false, concatEntries := 0, combinePasses := 0 }
    | .ok _ => afterScale e output_path true
  else afterScale e output_path false

/-- One task dict handed to the scheduler, together with the environment
that determines the outcomes of the external calls its processing makes. -/
structure TaskData where
  video_path : String
  audio_path : String
  output_path : String
  quality_preset : String
  env : Env

/-- The per-task result dict (`status`, `output_path`, `video_path`,
`audio_path`, `error`). The two wall clock fields of the source are not
modelled. -/
structure TaskResult where
  status : String
  output_path : Option String
  video_path : String
  audio_path : String
  error : Option String

/-- Embedding of `process_single_video_task`: run the duration matcher and
convert any exception into a failed result record instead of re-raising. -/
def process_single_video_task (t : TaskData) : TaskResult :=
  match (loop_video_to_match_audio t.env t.output_path).result with
  | .ok out =>
      { status := "success", output_path := some out, video_path := t.video_path,
        audio_path := t.audio_path, error := none }
  | .error msg =>
      { status := "failed", output_path := none, video_path := t.video_path,
        audio_path := t.audio_path, error := some msg }

/-- The batch result dict. `total_time` is modelled only where the source
assigns it a constant (the empty batch writes the literal 0); `pool_size`
is the observation of the `max_workers` value handed to the
`ThreadPoolExecutor` (`none` when no pool was opened). -/
structure BatchResult where
  results : List TaskResult
  total_time : ℚ
  successful_count : ℕ
  failed_count : ℕ
  processing_mode : Option String
  pool_size : Option ℕ

/-- The message of the `RuntimeError` raised when `check_gpu_available`
returns false. -/
def gpuUnavailableMsg : String :=
  "❌ GPU (NVENC) not available! This version requires NVIDIA GPU with CUDA support."

/-- Embedding of `process_videos_parallel(tasks, max_workers,
quality_preset)`. `gpu` is the value of `check_gpu_available()`. The pool
size is `min(max_workers, 6)`; every task is copied with the quality
preset filled in and processed by `process_single_video_task`; the
completion order of the pool is abstracted to submission order (no claim
depends on the order). -/
def process_videos_parallel (gpu : Bool) (tasks : List TaskData) (max_workers : ℕ)
    (quality_preset : String) : Except String BatchResult :=
  if !gpu then .error gpuUnavailableMsg
  else
    let workers := min max_workers 6
    let prepared := tasks.map fun t => { t with quality_preset := quality_preset }
    let results := prepared.map process_single_video_task
    let successful := results.countP fun r => r.status == "success"
    .ok { results := results, total_time := 0, successful_count := successful,
          failed_count := results.length - successful, processing_mode := none,
          pool_size := some workers }

/-- Embedding of `process_videos_smart(tasks, max_workers,
quality_preset)`: hardware check first, then the zero-task, single-task
and parallel branches of the source. -/
def process_videos_smart (gpu : Bool) (tasks : List TaskData) (max_workers : ℕ)
    (quality_preset : String) : Except String BatchResult :=
  if !gpu then .error gpuUnavailableMsg
  else
    match tasks with
    | [] =>
        .ok { results := [], total_time := 0, successful_count := 0,
              failed_count := 0, processing_mode := some "none", pool_size := none }
    | [task] =>
        match (loop_video_to_match_audio task.env task.output_path).result with
        | .ok out =>
            .ok { results := [{ status := "success", output_path := some out,
                                video_path := task.video_path,
                                audio_path := task.audio_path, error := none }],
                  total_time := 0, successful_count := 1, failed_count := 0,
                  processing_mode := some "single_gpu", pool_size := none }
        | .error msg =>
            .ok { results := [{ status := "failed", output_path := none,
                                video_path := task.video_path,
                                audio_path := task.audio_path, error := some msg }],
                  total_time := 0, successful_count := 0, failed_count := 1,
                  processing_mode := some "single_gpu", pool_size := none }
    | t1 :: t2 :: rest =>
        match process_videos_parallel gpu (t1 :: t2 :: rest) max_workers quality_preset with
        | .error msg => .error msg
        | .ok r => .ok { r with processing_mode := some "parallel_gpu" }

/-! ## Sample environments used for concrete runs -/

/-- Environment of a run where every external call succeeds, the input is
already 1920x1080, the video lasts 10 seconds and the audio 25 seconds. -/
def envLoop : Env :=
  { needsScale := false, scale := .ok (), probeVideo := .ok 10,
    probeAudio := .ok 25, concat := .ok (), trim := .ok (), combine := .ok () }

/-- Environment of a run where every external call succeeds and both the
video and the audio last exactly 10 seconds. -/
def envEqual : Env :=
  { needsScale := false, scale := .ok (), probeVideo := .ok 10,
    probeAudio := .ok 10, concat := .ok (), trim := .ok (), combine := .ok () }

/-- Environment of a run that reaches the loop branch (video 10s, audio
25s) and then fails at the concat step. -/
def envConcatFail : Env :=
  { needsScale := false, scale := .ok (), probeVideo := .ok 10,
    probeAudio := .ok 25, concat := .error "concat demuxer exited 1",
    trim := .ok (), combine := .ok () }

/-- A sample raw transcription segment: six words over three seconds. -/
def segSample : RawSegment :=
  { start := 0, stop := 3, words := ["we", "look", "at", "six", "sample", "words"] }

/-! ## Helper lemmas -/

/-- A string append with a non-empty left part is not the empty string. -/
theorem append_ne_empty_of_left (p s : String) (hp : p.data ≠ []) : p ++ s ≠ "" := by
  intro h
  have h2 := congrArg String.data h
  rw [String.data_append] at h2
  simp only [List.append_eq_nil] at h2
  exact hp h2.1

/-- Reduction of the duration matcher to its continuation after a scaling
step that did not raise. -/
theorem matcher_reduces (e : Env) (out : String)
    (hscale : e.needsScale = false ∨ e.scale = .ok ()) :
    loop_video_to_match_audio e out = afterScale e out e.needsScale := by
  cases hns : e.needsScale with
  | false => simp [loop_video_to_match_audio, hns]
  | true =>
    rcases hscale with h | h
    · rw [hns] at h; cases h
    · simp [loop_video_to_match_audio, hns, h]

/-- On the loop branch (audio strictly longer than video), the concat list
gets `int(audio/video) + 1` entries, at least one of them. -/
theorem afterScale_loop_branch (e : Env) (out : String) (scaled : Bool)
    (video_dur audio_dur : ℚ)
    (hv : e.probeVideo = .ok video_dur) (ha : e.probeAudio = .ok audio_dur)
    (hpos : 0 < video_dur) (hlt : video_dur < audio_dur) :
    (afterScale e out scaled).usedLoopPath = true ∧
    (afterScale e out scaled).concatEntries = (⌊audio_dur / video_dur⌋ + 1).toNat ∧
    1 ≤ (afterScale e out scaled).concatEntries := by
  have hq : ¬ audio_dur ≤ video_dur := not_le.mpr hlt
  have hdiv : (0 : ℚ) < audio_dur / video_dur := div_pos (hpos.trans hlt) hpos
  have hflr : 0 ≤ ⌊audio_dur / video_dur⌋ := Int.floor_nonneg.mpr hdiv.le
  have hpy : pyInt (audio_dur / video_dur) = ⌊audio_dur / video_dur⌋ := by
    rw [pyInt, if_pos hdiv.le]
  have hflr2 : 0 ≤ pyInt (audio_dur / video_dur) := by rw [hpy]; exact hflr
  simp only [afterScale, hv, ha]
  rw [if_neg hq]
  rcases e.concat with s1 | u1 <;> rcases e.trim with s2 | u2 <;>
    rcases e.combine with s3 | u3
  all_goals refine ⟨rfl, by simp [hpy], ?_⟩
  all_goals show 1 ≤ (pyInt (audio_dur / video_dur) + 1).toNat
  all_goals omega

/-- On the direct branch (audio not longer than video), no concat entry is
written, the loop path is not taken, and exactly one combine pass runs. -/
theorem afterScale_direct_branch (e : Env) (out : String) (scaled : Bool)
    (video_dur audio_dur : ℚ)
    (hv : e.probeVideo = .ok video_dur) (ha : e.probeAudio = .ok audio_dur)
    (hle : audio_dur ≤ video_dur) :
    (afterScale e out scaled).usedLoopPath = false ∧
    (afterScale e out scaled).concatEntries = 0 ∧
    (afterScale e out scaled).combinePasses = 1 := by
  simp only [afterScale, hv, ha]
  rw [if_pos hle]
  rcases e.combine with s1 | u1 <;> exact ⟨rfl, rfl, rfl⟩

/-- When the continuation after scaling returns successfully, its cleanup
block has removed every temporary file. -/
theorem afterScale_ok_cleanup (e : Env) (out : String) (scaled : Bool) (p : String)
    (h : (afterScale e out scaled).result = .ok p) :
    (afterScale e out scaled).tempsLeft = [] := by
  rcases hpv : e.probeVideo with s | video_dur <;>
    simp only [afterScale, hpv] at h ⊢
  · cases h
  rcases hpa : e.probeAudio with s | audio_dur <;> simp only [hpa] at h ⊢
  · cases h
  by_cases hq : audio_dur ≤ video_dur
  · rw [if_pos hq] at h ⊢
    rcases hcb : e.combine with s | u <;> simp only [hcb] at h ⊢
    cases h
  · rw [if_neg hq] at h ⊢
    rcases hcc : e.concat with s | u <;> simp only [hcc] at h ⊢
    · cases h
    rcases htr : e.trim with s | u <;> simp only [htr] at h ⊢
    · cases h
    rcases hcb : e.combine with s | u <;> simp only [hcb] at h ⊢
    cases h

/-- Every message the continuation after scaling can raise starts with a
non-empty literal prefix, so it is never the empty string. -/
theorem afterScale_error_ne_empty (e : Env) (out : String) (scaled : Bool) (msg : String)
    (h : (afterScale e out scaled).result = .error msg) : msg ≠ "" := by
  rcases hpv : e.probeVideo with s | video_dur <;> simp only [afterScale, hpv] at h
  · injection h with h1
    subst h1
    exact append_ne_empty_of_left _ _ (by decide)
  rcases hpa : e.probeAudio with s | audio_dur <;> simp only [hpa] at h
  · injection h with h1
    subst h1
    exact append_ne_empty_of_left _ _ (by decide)
  by_cases hq : audio_dur ≤ video_dur
  · rw [if_pos hq] at h
    rcases hcb : e.combine with s | u <;> simp only [hcb] at h
    · injection h with h1
      subst h1
      exact append_ne_empty_of_left _ _ (by decide)
    · cases h
  · rw [if_neg hq] at h
    rcases hcc : e.concat with s | u <;> simp only [hcc] at h
    · injection h with h1
      subst h1
      exact append_ne_empty_of_left _ _ (by decide)
    rcases htr : e.trim with s | u <;> simp only [htr] at h
    · injection h with h1
      subst h1
      exact append_ne_empty_of_left _ _ (by decide)
    rcases hcb : e.combine with s | u <;> simp only [hcb] at h
    · injection h with h1
      subst h1
      exact append_ne_empty_of_left _ _ (by decide)
    · cases h

/-- Every message the duration matcher can raise is non-empty. -/
theorem matcher_error_ne_empty (e : Env) (out msg : String)
    (h : (loop_video_to_match_audio e out).result = .error msg) : msg ≠ "" := by
  cases hns : e.needsScale with
  | false =>
    have hred := matcher_reduces e out (Or.inl hns)
    rw [hns] at hred
    rw [hred] at h
    exact afterScale_error_ne_empty e out false msg h
  | true =>
    rcases hsc : e.scale with s | u
    · rw [loop_video_to_match_audio, if_pos hns, hsc] at h
      simp only [Except.error.injEq] at h
      subst h
      exact append_ne_empty_of_left _ _ (by decide)
    · have hred := matcher_reduces e out (Or.inr hsc)
      rw [hns] at hred
      rw [hred] at h
      exact afterScale_error_ne_empty e out true msg h

/-- Evaluation of `process_videos_parallel` with the hardware check
passing: the result record it always returns. -/
theorem parallel_eval (tasks : List TaskData) (max_workers : ℕ) (preset : String) :
    process_videos_parallel true tasks max_workers preset =
      .ok { results := (tasks.map fun t => { t with quality_preset := preset }).map
              process_single_video_task,
            total_time := 0,
            successful_count := ((tasks.map fun t =>
              { t with quality_preset := preset }).map
                process_single_video_task).countP fun r => r.status == "success",
            failed_count := ((tasks.map fun t =>
              { t with quality_preset := preset }).map
                process_single_video_task).length
              - ((tasks.map fun t => { t with quality_preset := preset }).map
                  process_single_video_task).countP fun r => r.status == "success",
            processing_mode := none, pool_size := some (min max_workers 6) } := rfl

/-- Evaluation of the multi-task branch of `process_videos_smart`. -/
theorem smart_multi_eval (t1 t2 : TaskData) (rest : List TaskData) (max_workers : ℕ)
    (preset : String) :
    process_videos_smart true (t1 :: t2 :: rest) max_workers preset =
      .ok { results := ((t1 :: t2 :: rest).map fun t =>
              { t with quality_preset := preset }).map process_single_video_task,
            total_time := 0,
            successful_count := (((t1 :: t2 :: rest).map fun t =>
              { t with quality_preset := preset }).map
                process_single_video_task).countP fun r => r.status == "success",
            failed_count := (((t1 :: t2 :: rest).map fun t =>
              { t with quality_preset := preset }).map
                process_single_video_task).length
              - (((t1 :: t2 :: rest).map fun t =>
                  { t with quality_preset := preset }).map
                    process_single_video_task).countP fun r => r.status == "success",
            processing_mode := some "parallel_gpu",
            pool_size := some (min max_workers 6) } := rfl

/-- Evaluation of the single-task branch of `process_videos_smart` when
the duration matcher succeeds. -/
theorem smart_single_ok_eval (t : TaskData) (max_workers : ℕ) (preset out : String)
    (h : (loop_video_to_match_audio t.env t.output_path).result = .ok out) :
    process_videos_smart true [t] max_workers preset =
      .ok { results := [{ status := "success", output_path := some out,
                          video_path := t.video_path, audio_path := t.audio_path,
                          error := none }],
            total_time := 0, successful_count := 1, failed_count := 0,
            processing_mode := some "single_gpu", pool_size := none } := by
  simp only [process_videos_smart, h]
  rfl

/-- Evaluation of the single-task branch of `process_videos_smart` when
the duration matcher raises. -/
theorem smart_single_err_eval (t : TaskData) (max_workers : ℕ) (preset msg : String)
    (h : (loop_video_to_match_audio t.env t.output_path).result = .error msg) :
    process_videos_smart true [t] max_workers preset =
      .ok { results := [{ status := "failed", output_path := none,
                          video_path := t.video_path, audio_path := t.audio_path,
                          error := some msg }],
            total_time := 0, successful_count := 0, failed_count := 1,
            processing_mode := some "single_gpu", pool_size := none } := by
  simp only [process_videos_smart, h]
  rfl

/-- The chunking walker never returns an empty list when it starts from a
non-empty word list or a non-empty current chunk. -/
theorem chunkWordsAux_ne_nil (m : ℕ) (ws : List String) :
    ∀ current : List String, ws ≠ [] ∨ current ≠ [] →
      chunkWordsAux m ws current ≠ [] := by
  induction ws with
  | nil =>
    intro current h hnil
    rcases h with h | h
    · exact h rfl
    · cases current with
      | nil => exact h rfl
      | cons a l => simp [chunkWordsAux] at hnil
  | cons w ws ih =>
    intro current _ hnil
    simp only [chunkWordsAux] at hnil
    by_cases hm : m ≤ (current ++ [w]).length
    · rw [if_pos hm] at hnil
      cases hnil
    · rw [if_neg hm] at hnil
      exact ih (current ++ [w]) (Or.inr (by simp)) hnil

/-- Chunking a non-empty word list yields at least one chunk. -/
theorem chunk_text_by_words_ne_nil (words : List String) (m : ℕ) (h : words ≠ []) :
    chunk_text_by_words words m ≠ [] := by
  rw [chunk_text_by_words]
  intro hmap
  exact chunkWordsAux_ne_nil m words [] (Or.inl h) (List.map_eq_nil_iff.mp hmap)

/-- Indexing an enumerate-then-map list. -/
theorem get_enum_map (l : List String) (f : ℕ × String → CaptionSegment) (i : ℕ)
    (hi : i < (l.enum.map f).length) :
    (l.enum.map f).get ⟨i, hi⟩ = f (i, l.get ⟨i, by simpa using hi⟩) := by
  simp [List.getElem_enum]

/-- The spans of uniformly laid out chunks sum to `length * d`. -/
theorem sum_spans (l : List String) (t0 d : ℚ) :
    ((l.enum.map fun ic =>
        ({ start := t0 + ic.1 * d, stop := t0 + ic.1 * d + d, text := ic.2 }
          : CaptionSegment)).map fun c => c.stop - c.start).sum = l.length * d := by
  rw [List.map_map]
  have hmap : l.enum.map ((fun c => c.stop - c.start) ∘ fun ic : ℕ × String =>
        ({ start := t0 + ic.1 * d, stop := t0 + ic.1 * d + d, text := ic.2 }
          : CaptionSegment))
      = l.enum.map fun _ => d :=
    List.map_congr_left fun a _ => by
      simp only [Function.comp_apply]
      ring
  rw [hmap]
  simp [List.map_const', List.sum_replicate, nsmul_eq_mul]

/-! ## Claim theorems -/

/-- C1: when the audio is strictly longer than the (scaled) video, the
duration matcher takes the loop branch and writes exactly
`floor(audio_duration / video_duration) + 1` concat entries, never fewer
than one. -/
theorem loop_count_formula (e : Env) (out : String) (video_dur audio_dur : ℚ)
    (hscale : e.needsScale = false ∨ e.scale = .ok ())
    (hv : e.probeVideo = .ok video_dur) (ha : e.probeAudio = .ok audio_dur)
    (hpos : 0 < video_dur) (hlt : video_dur < audio_dur) :
    (loop_video_to_match_audio e out).usedLoopPath = true ∧
    (loop_video_to_match_audio e out).concatEntries
      = (⌊audio_dur / video_dur⌋ + 1).toNat ∧
    1 ≤ (loop_video_to_match_audio e out).concatEntries := by
  rw [matcher_reduces e out hscale]
  exact afterScale_loop_branch e out e.needsScale video_dur audio_dur hv ha hpos hlt

/-- Witness for C1 at video 10s and audio 25s: the concat list has
`floor(25/10) + 1 = 3` entries. -/
theorem loop_count_formula_witness :
    (loop_video_to_match_audio envLoop "out.mp4").usedLoopPath = true ∧
    (loop_video_to_match_audio envLoop "out.mp4").concatEntries = 3 ∧
    1 ≤ (loop_video_to_match_audio envLoop "out.mp4").concatEntries := by
  have h := loop_count_formula envLoop "out.mp4" 10 25 (Or.inl rfl) rfl rfl
    (by norm_num) (by norm_num)
  have hf : ⌊(25 : ℚ) / 10⌋ = 2 := by
    rw [Int.floor_eq_iff]
    norm_num
  refine ⟨h.1, ?_, h.2.2⟩
  rw [h.2.1, hf]
  rfl

/-- C3: whenever the audio is not longer than the video (in particular
when they are equal), the duration matcher combines directly: one combine
pass, no loop branch, no concat entry. -/
theorem direct_combine_on_short_audio (e : Env) (out : String) (video_dur audio_dur : ℚ)
    (hscale : e.needsScale = false ∨ e.scale = .ok ())
    (hv : e.probeVideo = .ok video_dur) (ha : e.probeAudio = .ok audio_dur)
    (hle : audio_dur ≤ video_dur) :
    (loop_video_to_match_audio e out).usedLoopPath = false ∧
    (loop_video_to_match_audio e out).concatEntries = 0 ∧
    (loop_video_to_match_audio e out).combinePasses = 1 := by
  rw [matcher_reduces e out hscale]
  exact afterScale_direct_branch e out e.needsScale video_dur audio_dur hv ha hle

/-- Witness for C3 at the boundary where audio and video both last 10
seconds. -/
theorem direct_combine_on_short_audio_witness :
    (loop_video_to_match_audio envEqual "out.mp4").usedLoopPath = false ∧
    (loop_video_to_match_audio envEqual "out.mp4").concatEntries = 0 ∧
    (loop_video_to_match_audio envEqual "out.mp4").combinePasses = 1 :=
  direct_combine_on_short_audio envEqual "out.mp4" 10 10 (Or.inl rfl) rfl rfl le_rfl

/-- C2 counterexample: a run that fails at the concat step leaves its
concat list on disk, so the intermediates are not deleted on every
failure path. -/
theorem cleanup_counterexample :
    (loop_video_to_match_audio envConcatFail "out.mp4").result
      = .error "Video looping failed: concat demuxer exited 1" ∧
    (loop_video_to_match_audio envConcatFail "out.mp4").tempsLeft
      = [TempFile.concatList] ∧
    ([TempFile.concatList] : List TempFile) ≠ [] := by
  have hred : loop_video_to_match_audio envConcatFail "out.mp4"
      = afterScale envConcatFail "out.mp4" false :=
    matcher_reduces envConcatFail "out.mp4" (Or.inl rfl)
  have hq : ¬ (25 : ℚ) ≤ 10 := by norm_num
  rw [hred]
  refine ⟨?_, ?_, by decide⟩
  · simp only [afterScale, envConcatFail]
    rw [if_neg hq]
    rfl
  · simp only [afterScale, envConcatFail]
    rw [if_neg hq]
    rfl

/-- C2 amended: whenever the duration matcher returns successfully, every
temporary file it created has been deleted; on the failure paths shown by
the counterexample the files written before the failing step remain. -/
theorem cleanup_on_success (e : Env) (out p : String)
    (h : (loop_video_to_match_audio e out).result = .ok p) :
    (loop_video_to_match_audio e out).tempsLeft = [] := by
  cases hns : e.needsScale with
  | false =>
    have hred : loop_video_to_match_audio e out = afterScale e out false := by
      have := matcher_reduces e out (Or.inl hns)
      rwa [hns] at this
    rw [hred] at h ⊢
    exact afterScale_ok_cleanup e out false p h
  | true =>
    rcases hsc : e.scale with s | u
    · rw [loop_video_to_match_audio, if_pos hns, hsc] at h
      cases h
    · have hred : loop_video_to_match_audio e out = afterScale e out true := by
        have := matcher_reduces e out (Or.inr hsc)
        rwa [hns] at this
      rw [hred] at h ⊢
      exact afterScale_ok_cleanup e out true p h

/-- Witness for the amended C2: the all-success loop run ends with no
temporary file left. -/
theorem cleanup_on_success_witness :
    (loop_video_to_match_audio envLoop "out.mp4").tempsLeft = [] := by
  apply cleanup_on_success envLoop "out.mp4" "out.mp4"
  have hred : loop_video_to_match_audio envLoop "out.mp4"
      = afterScale envLoop "out.mp4" false :=
    matcher_reduces envLoop "out.mp4" (Or.inl rfl)
  have hq : ¬ (25 : ℚ) ≤ 10 := by norm_num
  rw [hred]
  simp only [afterScale, envLoop]
  rw [if_neg hq]

/-- C6: the overlay window end is clamped to the duration of the primary
video in every timing mode; with primary duration 60 a requested custom
end of 90 resolves to 60, and a missing custom end resolves to the
primary duration. -/
theorem overlay_window_end_clamped :
    (∀ (timing_mode : String) (main_duration overlay_duration start_time : ℚ)
        (end_time : Option ℚ),
        (apply_video_overlay_window timing_mode main_duration overlay_duration
            start_time end_time).2 ≤ main_duration) ∧
    apply_video_overlay_window "custom_time" 60 7 0 (some 90) = (0, 60) ∧
    (apply_video_overlay_window "custom_time" 60 7 0 none).2 = 60 := by
  refine ⟨fun m md od st et => min_le_right _ _, ?_, ?_⟩
  · simp only [apply_video_overlay_window]
    rw [if_neg (by decide), if_neg (by decide)]
    norm_num
  · simp only [apply_video_overlay_window]
    rw [if_neg (by decide), if_neg (by decide)]
    norm_num

/-- C7: every per-task exception is caught at the worker boundary and
becomes a failed result record with a non-empty error message and no
output path; batches (parallel or single-task) always return normally
with per-task results. -/
theorem task_exception_containment :
    (∀ t : TaskData,
        (∃ p, (loop_video_to_match_audio t.env t.output_path).result = .ok p ∧
            process_single_video_task t =
              { status := "success", output_path := some p,
                video_path := t.video_path, audio_path := t.audio_path,
                error := none }) ∨
        (∃ msg, (loop_video_to_match_audio t.env t.output_path).result = .error msg ∧
            msg ≠ "" ∧
            process_single_video_task t =
              { status := "failed", output_path := none,
                video_path := t.video_path, audio_path := t.audio_path,
                error := some msg })) ∧
    (∀ (tasks : List TaskData) (max_workers : ℕ) (preset : String), ∃ r,
        process_videos_parallel true tasks max_workers preset = .ok r ∧
        r.results.length = tasks.length) ∧
    (∀ (t : TaskData) (max_workers : ℕ) (preset : String), ∃ r,
        process_videos_smart true [t] max_workers preset = .ok r ∧
        r.results.length = 1) := by
  refine ⟨?_, ?_, ?_⟩
  · intro t
    cases h : (loop_video_to_match_audio t.env t.output_path).result with
    | ok p =>
      refine Or.inl ⟨p, rfl, ?_⟩
      simp only [process_single_video_task, h]
    | error msg =>
      refine Or.inr ⟨msg, rfl, matcher_error_ne_empty _ _ _ h, ?_⟩
      simp only [process_single_video_task, h]
  · intro tasks max_workers preset
    refine ⟨_, parallel_eval tasks max_workers preset, ?_⟩
    simp
  · intro t max_workers preset
    cases h : (loop_video_to_match_audio t.env t.output_path).result with
    | ok p => exact ⟨_, smart_single_ok_eval t max_workers preset p h, rfl⟩
    | error msg => exact ⟨_, smart_single_err_eval t max_workers preset msg h, rfl⟩

/-- C8: the effective worker pool is `min(max_workers, 6)` — a hard
ceiling of 6 — both in `process_videos_parallel` and on the multi-task
branch of `process_videos_smart`; requesting 20 workers gives 6. -/
theorem worker_pool_ceiling :
    (∀ (tasks : List TaskData) (max_workers : ℕ) (preset : String), ∃ r,
        process_videos_parallel true tasks max_workers preset = .ok r ∧
        r.pool_size = some (min max_workers 6) ∧ min max_workers 6 ≤ 6) ∧
    (∀ (t1 t2 : TaskData) (rest : List TaskData) (max_workers : ℕ) (preset : String),
        ∃ r, process_videos_smart true (t1 :: t2 :: rest) max_workers preset = .ok r ∧
          r.pool_size = some (min max_workers 6)) ∧
    (∀ (tasks : List TaskData) (preset : String), ∃ r,
        process_videos_parallel true tasks 20 preset = .ok r ∧
        r.pool_size = some 6) := by
  refine ⟨?_, ?_, ?_⟩
  · intro tasks max_workers preset
    exact ⟨_, parallel_eval tasks max_workers preset, rfl, min_le_right _ _⟩
  · intro t1 t2 rest max_workers preset
    exact ⟨_, smart_multi_eval t1 t2 rest max_workers preset, rfl⟩
  · intro tasks preset
    exact ⟨_, parallel_eval tasks 20 preset, rfl⟩

/-- C9: an empty task list gives back the literal empty batch record
(empty results, zero counts, total time 0) right after the hardware
check, and a missing hardware encoder makes the scheduler raise before
any task is touched. -/
theorem empty_batch_immediate :
    (∀ (max_workers : ℕ) (preset : String),
        process_videos_smart true [] max_workers preset =
          .ok { results := [], total_time := 0, successful_count := 0,
                failed_count := 0, processing_mode := some "none",
                pool_size := none }) ∧
    (∀ (tasks : List TaskData) (max_workers : ℕ) (preset : String),
        process_videos_smart false tasks max_workers preset
          = .error gpuUnavailableMsg) :=
  ⟨fun _ _ => rfl, fun _ _ _ => rfl⟩

/-- C10: whenever the scheduler returns, there is exactly one result per
submitted task, the success and failure counts sum to the task count, and
the success count equals the number of result records whose status is
success — on the zero-task, single-task and parallel branches alike. -/
theorem result_counts_consistent :
    ∀ (tasks : List TaskData) (max_workers : ℕ) (preset : String), ∃ r,
      process_videos_smart true tasks max_workers preset = .ok r ∧
      r.results.length = tasks.length ∧
      r.successful_count + r.failed_count = tasks.length ∧
      r.successful_count
        = (r.results.filter fun x => x.status == "success").length := by
  intro tasks max_workers preset
  match tasks with
  | [] => exact ⟨_, rfl, rfl, rfl, rfl⟩
  | [t] =>
    cases h : (loop_video_to_match_audio t.env t.output_path).result with
    | ok p =>
      exact ⟨_, smart_single_ok_eval t max_workers preset p h, rfl, rfl, rfl⟩
    | error msg =>
      exact ⟨_, smart_single_err_eval t max_workers preset msg h, rfl, rfl, rfl⟩
  | t1 :: t2 :: rest =>
    refine ⟨_, smart_multi_eval t1 t2 rest max_workers preset, ?_, ?_, ?_⟩
    · show (((t1 :: t2 :: rest).map fun t => { t with quality_preset := preset }).map
          process_single_video_task).length = (t1 :: t2 :: rest).length
      simp
    · show (((t1 :: t2 :: rest).map fun t => { t with quality_preset := preset }).map
            process_single_video_task).countP (fun r => r.status == "success")
          + ((((t1 :: t2 :: rest).map fun t => { t with quality_preset := preset }).map
              process_single_video_task).length
            - (((t1 :: t2 :: rest).map fun t =>
                { t with quality_preset := preset }).map
                  process_single_video_task).countP fun r => r.status == "success")
          = (t1 :: t2 :: rest).length
      have hle : (((t1 :: t2 :: rest).map fun t =>
            { t with quality_preset := preset }).map
              process_single_video_task).countP (fun r => r.status == "success")
          ≤ (((t1 :: t2 :: rest).map fun t => { t with quality_preset := preset }).map
              process_single_video_task).length :=
        List.countP_le_length _
      have hlen : (((t1 :: t2 :: rest).map fun t =>
            { t with quality_preset := preset }).map
              process_single_video_task).length = (t1 :: t2 :: rest).length := by
        simp
      omega
    · show (((t1 :: t2 :: rest).map fun t => { t with quality_preset := preset }).map
            process_single_video_task).countP (fun r => r.status == "success")
          = ((((t1 :: t2 :: rest).map fun t => { t with quality_preset := preset }).map
              process_single_video_task).filter fun x => x.status == "success").length
      exact List.countP_eq_length_filter _ _

/-- C4: for a raw segment with non-empty text, every produced chunk spans
exactly `(stop - start) / n` where `n` is the produced chunk count, chunk
`i` starts at `start + i * d`, the chunk durations sum exactly to the
parent span, and `n * d` equals the parent span (all exact over ℚ). -/
theorem chunk_time_partition (seg : RawSegment) (hw : seg.words ≠ []) :
    0 < (chunkSegment seg).length ∧
    (∀ i, ∀ hi : i < (chunkSegment seg).length,
        ((chunkSegment seg).get ⟨i, hi⟩).start
            = seg.start + i * ((seg.stop - seg.start) / ((chunkSegment seg).length : ℚ)) ∧
        ((chunkSegment seg).get ⟨i, hi⟩).stop - ((chunkSegment seg).get ⟨i, hi⟩).start
            = (seg.stop - seg.start) / ((chunkSegment seg).length : ℚ)) ∧
    ((chunkSegment seg).map fun c => c.stop - c.start).sum = seg.stop - seg.start ∧
    ((chunkSegment seg).length : ℚ)
        * ((seg.stop - seg.start) / ((chunkSegment seg).length : ℚ))
      = seg.stop - seg.start := by
  have hne : chunk_text_by_words seg.words 5 ≠ [] :=
    chunk_text_by_words_ne_nil seg.words 5 hw
  have hemp : (chunk_text_by_words seg.words 5).isEmpty = false := by
    cases hcw : chunk_text_by_words seg.words 5 with
    | nil => exact absurd hcw hne
    | cons a l => rfl
  have hrep : chunkSegment seg
      = (chunk_text_by_words seg.words 5).enum.map (fun ic =>
          { start := seg.start + ic.1 * ((seg.stop - seg.start) /
                ((chunk_text_by_words seg.words 5).length : ℚ)),
            stop := seg.start + ic.1 * ((seg.stop - seg.start) /
                ((chunk_text_by_words seg.words 5).length : ℚ))
              + (seg.stop - seg.start) / ((chunk_text_by_words seg.words 5).length : ℚ),
            text := ic.2 }) := by
    simp only [chunkSegment]
    rw [hemp, if_neg Bool.false_ne_true]
  have hlen : (chunkSegment seg).length = (chunk_text_by_words seg.words 5).length := by
    rw [hrep]
    simp
  have hpos : 0 < (chunkSegment seg).length := by
    rw [hlen]
    exact List.length_pos.mpr hne
  have hc : ((chunk_text_by_words seg.words 5).length : ℚ) ≠ 0 := by
    have := List.length_pos.mpr hne
    exact_mod_cast Nat.pos_iff_ne_zero.mp this
  refine ⟨hpos, ?_, ?_, ?_⟩
  · intro i hi
    revert hi
    rw [hrep]
    intro hi
    rw [get_enum_map]
    constructor
    · simp
    · simp only [List.length_map, List.enum_length]
      ring
  · rw [hrep, sum_spans]
    field_simp
  · rw [hlen]
    field_simp

/-- Witness for C4 at a six-word segment spanning seconds 0 to 3: two
chunks of 1.5 seconds each. -/
theorem chunk_time_partition_witness :
    0 < (chunkSegment segSample).length ∧
    (∀ i, ∀ hi : i < (chunkSegment segSample).length,
        ((chunkSegment segSample).get ⟨i, hi⟩).start
            = segSample.start + i * ((segSample.stop - segSample.start)
                / ((chunkSegment segSample).length : ℚ)) ∧
        ((chunkSegment segSample).get ⟨i, hi⟩).stop
            - ((chunkSegment segSample).get ⟨i, hi⟩).start
            = (segSample.stop - segSample.start)
                / ((chunkSegment segSample).length : ℚ)) ∧
    ((chunkSegment segSample).map fun c => c.stop - c.start).sum
        = segSample.stop - segSample.start ∧
    ((chunkSegment segSample).length : ℚ)
        * ((segSample.stop - segSample.start) / ((chunkSegment segSample).length : ℚ))
      = segSample.stop - segSample.start :=
  chunk_time_partition segSample (by decide)

/-- Round half to even at a point whose fractional part is not one half:
it is the floor after adding one half. -/
theorem rne_of_ne (q : ℚ) (f z : ℤ) (hf : ⌊q⌋ = f) (hne2 : q - (f : ℚ) ≠ 1 / 2)
    (hz : ⌊q + 1 / 2⌋ = z) : rne q = z := by
  rw [rne, hf, if_neg hne2]
  exact hz

/-- Assembly of the timestamp formatter from the precomputed floor and
rounding values. -/
theorem format_timestamp_eval (s : ℚ) (H K S c : ℤ)
    (hH : ⌊s / 3600⌋ = H)
    (hM : ⌊(s - 3600 * (H : ℚ)) / 60⌋ = K)
    (hS : ⌊s / 60⌋ = S)
    (hc : rne ((s - 60 * (S : ℚ)) * 100) = c) :
    format_timestamp_ass s =
      toString H ++ ":" ++ pad2z K ++ ":"
        ++ (pad2 (c.toNat / 100) ++ "." ++ pad2 (c.toNat % 100)) := by
  simp only [format_timestamp_ass, pyFloorDiv, pyMod, fmt052]
  rw [hH, hM, hS, hc]

/-- Evaluation of the formatter at 0 seconds. -/
theorem fmt_eval_zero : format_timestamp_ass 0 = "0:00:00.00" := by
  have h := format_timestamp_eval 0 0 0 0 0
    (by rw [Int.floor_eq_iff]; norm_num)
    (by rw [Int.floor_eq_iff]; norm_num)
    (by rw [Int.floor_eq_iff]; norm_num)
    (rne_of_ne _ 0 _ (by rw [Int.floor_eq_iff]; norm_num) (by norm_num)
      (by rw [Int.floor_eq_iff]; norm_num))
  rw [h]
  decide

/-- Evaluation of the formatter at 3661.25 seconds. -/
theorem fmt_eval_366125 : format_timestamp_ass 3661.25 = "1:01:01.25" := by
  have h := format_timestamp_eval 3661.25 1 1 61 125
    (by rw [Int.floor_eq_iff]; norm_num)
    (by rw [Int.floor_eq_iff]; norm_num)
    (by rw [Int.floor_eq_iff]; norm_num)
    (rne_of_ne _ 125 _ (by rw [Int.floor_eq_iff]; norm_num) (by norm_num)
      (by rw [Int.floor_eq_iff]; norm_num))
  rw [h]
  decide

/-- Evaluation of the formatter at 59.999 seconds: the seconds field is
rounded up to 60.00 without carrying into the minutes. -/
theorem fmt_eval_59999 : format_timestamp_ass 59.999 = "0:00:60.00" := by
  have h := format_timestamp_eval 59.999 0 0 0 6000
    (by rw [Int.floor_eq_iff]; norm_num)
    (by rw [Int.floor_eq_iff]; norm_num)
    (by rw [Int.floor_eq_iff]; norm_num)
    (rne_of_ne _ 5999 _ (by rw [Int.floor_eq_iff]; norm_num) (by norm_num)
      (by rw [Int.floor_eq_iff]; norm_num))
  rw [h]
  decide

/-- Evaluation of the formatter at 3599.999 seconds. -/
theorem fmt_eval_3599999 : format_timestamp_ass 3599.999 = "0:59:60.00" := by
  have h := format_timestamp_eval 3599.999 0 59 59 6000
    (by rw [Int.floor_eq_iff]; norm_num)
    (by rw [Int.floor_eq_iff]; norm_num)
    (by rw [Int.floor_eq_iff]; norm_num)
    (rne_of_ne _ 5999 _ (by rw [Int.floor_eq_iff]; norm_num) (by norm_num)
      (by rw [Int.floor_eq_iff]; norm_num))
  rw [h]
  decide

/-- Evaluation of the formatter at 3600 seconds. -/
theorem fmt_eval_3600 : format_timestamp_ass 3600 = "1:00:00.00" := by
  have h := format_timestamp_eval 3600 1 0 60 0
    (by rw [Int.floor_eq_iff]; norm_num)
    (by rw [Int.floor_eq_iff]; norm_num)
    (by rw [Int.floor_eq_iff]; norm_num)
    (rne_of_ne _ 0 _ (by rw [Int.floor_eq_iff]; norm_num) (by norm_num)
      (by rw [Int.floor_eq_iff]; norm_num))
  rw [h]
  decide

/-- C5 counterexample: formatting 59.999 seconds yields the string
0:00:60.00, which is neither of the two strings the claim allows. -/
theorem timestamp_59999_counterexample :
    format_timestamp_ass 59.999 = "0:00:60.00" ∧
    format_timestamp_ass 59.999 ≠ "0:00:59.99" ∧
    format_timestamp_ass 59.999 ≠ "0:01:00.00" := by
  refine ⟨fmt_eval_59999, ?_, ?_⟩ <;> rw [fmt_eval_59999] <;> decide

/-- C5 amended: the formatter is total with the shape H:MM:SS.cc; its
rounding policy rounds the seconds field to centiseconds (half to even)
without carrying into minutes, giving 1:01:01.25 at 3661.25 and, at the
boundary values, 0:00:00.00 at 0, 0:00:60.00 at 59.999, 0:59:60.00 at
3599.999 and 1:00:00.00 at 3600. -/
theorem timestamp_formatting_policy :
    format_timestamp_ass 3661.25 = "1:01:01.25" ∧
    format_timestamp_ass 0 = "0:00:00.00" ∧
    format_timestamp_ass 59.999 = "0:00:60.00" ∧
    format_timestamp_ass 3599.999 = "0:59:60.00" ∧
    format_timestamp_ass 3600 = "1:00:00.00" :=
  ⟨fmt_eval_366125, fmt_eval_zero, fmt_eval_59999, fmt_eval_3599999, fmt_eval_3600⟩

end YTProducts
